import Mathlib

/-
Verification development for the op-conductor-ops cluster-management tool
(src/op-conductor-ops).  The Python source is shallowly embedded: each
command becomes a pure Lean function over an explicit `Network` state and
an RPC environment `Env` mapping each mutating RPC to the response the
remote endpoint would give.  The world is taken as static during one
command invocation: a re-fetch of the network (`get_network`, which the
CLI performs at the start of every command and inside nested command
calls) returns the same observed snapshot.  Commands return the list of
mutating RPCs they issued, in order, together with how the process ends:
`Outcome.exited c` for a normal return or a `typer.Exit(c)`, and
`Outcome.raised` for a Python exception that escapes the command
(uncaught `AttributeError`, `requests` transport error, or
`raise_for_status` outside any `try`).
-/

namespace ConductorOps

/-- Result of one probe RPC inside `Sequencer.update` (sequencer.py):
`exn` = the probe body raised (transport error from `requests.post`,
invalid JSON, or a missing `result` key as happens for an RPC-level
error response), which escapes the probe and is seen by
`future.result()`; `httpErr` = non-2xx status, which the probe catches
via `raise_for_status` and turns into an early `return None` before any
field assignment; `ok v` = 2xx with a `result` value `v`. -/
inductive ProbeResult (α : Type)
  | exn
  | httpErr
  | ok (v : α)
deriving Repr, DecidableEq

/-- The probes launched by `Sequencer.update` (sequencer.py lines 130-142). -/
inductive ProbeId
  | conductor_active
  | conductor_leader
  | sequencer_healthy
  | sequencer_active
  | unsafe_l2
  | builder_unsafe_l2
  | rollup_boost_execution_mode
deriving Repr, DecidableEq

/-- One cluster member: configuration fields plus the observed snapshot,
mirroring `Sequencer.__init__` in sequencer.py.  Snapshot fields start as
`none` ("unknown") and are written by probes. -/
structure Sequencer where
  sequencer_id : String
  raft_addr : String
  conductor_rpc_url : String
  node_rpc_url : String
  rollup_boost_rpc_url : Option String := none
  builder_rpc_url : Option String := none
  voting : Bool
  conductor_active : Option Bool := none
  conductor_leader : Option Bool := none
  sequencer_healthy : Option Bool := none
  sequencer_active : Option Bool := none
  unsafe_l2_hash : Option String := none
  unsafe_l2_number : Option Nat := none
  builder_unsafe_l2_number : Option Nat := none
  builder_unsafe_l2_hash : Option String := none
  update_successful : Bool := false
  rollup_boost_execution_mode : Option String := none
deriving Repr, DecidableEq

/-- Python truthiness of an optional boolean attribute: `None` and
`False` are falsy, `True` is truthy. -/
def truthy (o : Option Bool) : Bool :=
  o.getD false

/-- Python truthiness of an optional string attribute (used for the
`if self.builder_rpc_url:` style checks): `None` and `""` are falsy. -/
def optTruthy (o : Option String) : Bool :=
  match o with
  | none => false
  | some s => s != ""

/-- The responses the environment gives to the probe RPCs of one refresh
cycle of one Sequencer. -/
structure ProbeOutcomes where
  conductor_active : ProbeResult Bool
  conductor_leader : ProbeResult Bool
  sequencer_healthy : ProbeResult Bool
  sequencer_active : ProbeResult Bool
  unsafe_l2 : ProbeResult (Nat × String)
  builder_unsafe_l2 : ProbeResult (Nat × String)
  rollup_boost_execution_mode : ProbeResult String
deriving Repr, DecidableEq

/-- Effect of processing one completed probe future, combining the probe
body (field assignment on success, early return on HTTP error, escaped
exception otherwise) with the `as_completed` loop body of
`Sequencer.update`, which sets `update_successful := False` when
`future.result()` raised and `True` otherwise (sequencer.py 146-154). -/
def applyProbe (out : ProbeOutcomes) (s : Sequencer) (p : ProbeId) : Sequencer :=
  match p with
  | .conductor_active =>
    match out.conductor_active with
    | .exn => { s with update_successful := false }
    | .httpErr => { s with update_successful := true }
    | .ok v => { s with conductor_active := some v, update_successful := true }
  | .conductor_leader =>
    match out.conductor_leader with
    | .exn => { s with update_successful := false }
    | .httpErr => { s with update_successful := true }
    | .ok v => { s with conductor_leader := some v, update_successful := true }
  | .sequencer_healthy =>
    match out.sequencer_healthy with
    | .exn => { s with update_successful := false }
    | .httpErr => { s with update_successful := true }
    | .ok v => { s with sequencer_healthy := some v, update_successful := true }
  | .sequencer_active =>
    match out.sequencer_active with
    | .exn => { s with update_successful := false }
    | .httpErr => { s with update_successful := true }
    | .ok v => { s with sequencer_active := some v, update_successful := true }
  | .unsafe_l2 =>
    match out.unsafe_l2 with
    | .exn => { s with update_successful := false }
    | .httpErr => { s with update_successful := true }
    | .ok v => { s with unsafe_l2_number := some v.1, unsafe_l2_hash := some v.2,
                        update_successful := true }
  | .builder_unsafe_l2 =>
    match out.builder_unsafe_l2 with
    | .exn => { s with update_successful := false }
    | .httpErr => { s with update_successful := true }
    | .ok v => { s with builder_unsafe_l2_number := some v.1,
                        builder_unsafe_l2_hash := some v.2,
                        update_successful := true }
  | .rollup_boost_execution_mode =>
    match out.rollup_boost_execution_mode with
    | .exn => { s with update_successful := false }
    | .httpErr => { s with update_successful := true }
    | .ok v => { s with rollup_boost_execution_mode := some v, update_successful := true }

/-- The probe functions submitted to the pool by `Sequencer.update`
(sequencer.py 131-142): five unconditional probes, plus the builder and
rollup-boost probes when the corresponding URL is configured (truthy). -/
def launchedProbes (s : Sequencer) : List ProbeId :=
  [ProbeId.conductor_active, ProbeId.conductor_leader, ProbeId.sequencer_healthy,
   ProbeId.sequencer_active, ProbeId.unsafe_l2]
  ++ (if optTruthy s.builder_rpc_url then [ProbeId.builder_unsafe_l2] else [])
  ++ (if optTruthy s.rollup_boost_rpc_url then [ProbeId.rollup_boost_execution_mode] else [])

/-- `Sequencer.update` (sequencer.py 130-154): all launched probes run to
completion and the `as_completed` loop processes them in completion
order, given here as `order` (a permutation of `launchedProbes s`).
Each probe writes only its own fields, so the snapshot does not depend
on the order; `update_successful` is reassigned on every iteration and
therefore ends as the status of the last processed future. -/
def Sequencer.update (s : Sequencer) (out : ProbeOutcomes) (order : List ProbeId) : Sequencer :=
  order.foldl (applyProbe out) s

/-- One named cluster (network.py). -/
structure Network where
  name : String
  sequencers : List Sequencer
deriving Repr, DecidableEq

/-- `Network.get_sequencer_by_id`: first member with the given id, `none`
if absent (network.py 17-25). -/
def Network.get_sequencer_by_id (n : Network) (sequencer_id : String) : Option Sequencer :=
  n.sequencers.find? (fun s => s.sequencer_id == sequencer_id)

/-- `Network.find_conductor_leader`: first member whose `conductor_leader`
snapshot is truthy (network.py 27-31). -/
def Network.find_conductor_leader (n : Network) : Option Sequencer :=
  n.sequencers.find? (fun s => truthy s.conductor_leader)

/-- `Network.find_active_sequencer`: first member whose `sequencer_active`
snapshot is truthy (network.py 33-37). -/
def Network.find_active_sequencer (n : Network) : Option Sequencer :=
  n.sequencers.find? (fun s => truthy s.sequencer_active)

/-- `Network.is_healthy`: every member's `sequencer_healthy` is truthy
(network.py 39-40). -/
def Network.is_healthy (n : Network) : Bool :=
  n.sequencers.all (fun s => truthy s.sequencer_healthy)

/-- The aggregate `update_successful` attribute as recomputed by
`Network.update` after every member refresh (network.py 15). -/
def Network.update_successful (n : Network) : Bool :=
  n.sequencers.all (fun s => s.update_successful)

/-- A mutating JSON-RPC request issued by a command, identified by the
endpoint URL it is POSTed to, its method and its parameters. -/
inductive Rpc
  | transferLeaderToServer (url id raftAddr : String)
  | pauseRpc (url : String)
  | resumeRpc (url : String)
  | overrideLeader (url : String) (value : Bool)
  | removeServer (url id : String)
  | addServerAsVoter (url id raftAddr : String)
  | addServerAsNonvoter (url id raftAddr : String)
  | stopSequencer (url : String)
  | startSequencer (url hash : String)
deriving Repr, DecidableEq

/-- The endpoint's behaviour on one mutating RPC: `exn` = `requests.post`
itself raises (transport error); `httpErr` = non-2xx status, so
`raise_for_status` raises; `rpcError` = 2xx with an `error` field in the
JSON body; `ok r` = 2xx with a `result` of `r` and no `error` field. -/
inductive RpcResp
  | exn
  | httpErr
  | rpcError (msg : String)
  | ok (result : String)
deriving Repr, DecidableEq

/-- Whether the response is a 2xx, error-free success. -/
def RpcResp.isOk : RpcResp → Bool
  | .ok _ => true
  | _ => false

/-- The static RPC environment for one command invocation. -/
abbrev Env := Rpc → RpcResp

/-- How a command ends: `exited c` for a normal return (c = 0) or a
`typer.Exit(c)`; `raised` for an uncaught Python exception. -/
inductive Outcome
  | exited (code : Nat)
  | raised
deriving Repr, DecidableEq

/-- A command run: the mutating RPCs issued, in order, and how the
command ended. -/
structure CmdOut where
  trace : List Rpc
  outcome : Outcome
deriving Repr, DecidableEq

/-- `transfer_leader` (op-conductor-ops.py 167-219).  The lookup of the
target precedes the leader check; when the leader is found, the
`logging.debug` f-string on lines 180-181 dereferences
`sequencer.sequencer_id` eagerly, so an absent target raises an
`AttributeError` there, before the dedicated `sequencer is None` check on
line 183 can run.  The non-voter and (unless forced) target-health and
target-conductor-active checks abort with exit code 1.  The
leader-conductor-active check on lines 199-201 only prints an error and
falls through: it has no `raise`, so the RPC is issued regardless. -/
def transfer_leader (net : Network) (sequencer_id : String) (force : Bool) (env : Env) : CmdOut :=
  match net.get_sequencer_by_id sequencer_id with
  | sequencer? =>
    match net.find_conductor_leader with
    | none => ⟨[], .exited 1⟩
    | some leader =>
      match sequencer? with
      | none => ⟨[], .raised⟩
      | some sequencer =>
        if sequencer.voting = false then ⟨[], .exited 1⟩
        else if !force && !truthy sequencer.sequencer_healthy then ⟨[], .exited 1⟩
        else if !force && !truthy sequencer.conductor_active then ⟨[], .exited 1⟩
        else
          let r := Rpc.transferLeaderToServer leader.conductor_rpc_url
            sequencer.sequencer_id sequencer.raft_addr
          match env r with
          | .exn => ⟨[r], .raised⟩
          | .httpErr => ⟨[r], .raised⟩
          | .rpcError _ => ⟨[r], .exited 1⟩
          | .ok _ => ⟨[r], .exited 0⟩

/-- The per-node loop of `pause` (op-conductor-ops.py 238-249).  The
`requests.post` call sits outside the `try`, so a transport error
escapes and aborts the loop (second component `true`); a non-2xx status
or an `error` field is caught inside the `try`, reported, and the loop
continues. -/
def pause_go (env : Env) : List Sequencer → List Rpc × Bool
  | [] => ([], false)
  | s :: rest =>
    let r := Rpc.pauseRpc s.conductor_rpc_url
    match env r with
    | .exn => ([r], true)
    | _ =>
      let (tr, aborted) := pause_go env rest
      (r :: tr, aborted)

/-- `pause` (op-conductor-ops.py 222-251).  The `error` local is
initialized to `False`, never set to `True` in the loop, and checked at
the end, so the command exits 0 whenever the loop completes. -/
def pause (net : Network) (sequencer_id : Option String) (env : Env) : CmdOut :=
  match sequencer_id with
  | some sid =>
    match net.get_sequencer_by_id sid with
    | none => ⟨[], .exited 1⟩
    | some s =>
      let (tr, aborted) := pause_go env [s]
      ⟨tr, if aborted then .raised else .exited 0⟩
  | none =>
    let (tr, aborted) := pause_go env net.sequencers
    ⟨tr, if aborted then .raised else .exited 0⟩

/-- The per-node loop of `resume` (op-conductor-ops.py 270-281), with the
same structure as `pause_go`. -/
def resume_go (env : Env) : List Sequencer → List Rpc × Bool
  | [] => ([], false)
  | s :: rest =>
    let r := Rpc.resumeRpc s.conductor_rpc_url
    match env r with
    | .exn => ([r], true)
    | _ =>
      let (tr, aborted) := resume_go env rest
      (r :: tr, aborted)

/-- `resume` (op-conductor-ops.py 254-283), same structure as `pause`,
including the never-set `error` flag. -/
def resume (net : Network) (sequencer_id : Option String) (env : Env) : CmdOut :=
  match sequencer_id with
  | some sid =>
    match net.get_sequencer_by_id sid with
    | none => ⟨[], .exited 1⟩
    | some s =>
      let (tr, aborted) := resume_go env [s]
      ⟨tr, if aborted then .raised else .exited 0⟩
  | none =>
    let (tr, aborted) := resume_go env net.sequencers
    ⟨tr, if aborted then .raised else .exited 0⟩

/-- `halt_sequencer` (op-conductor-ops.py 425-463).  Here the whole RPC
interaction sits inside the `try`, so every failure mode is caught,
turned into a warning, and the command returns normally (exit 0). -/
def halt_sequencer (net : Network) (force : Bool) (env : Env) : CmdOut :=
  let all_conductors_paused := net.sequencers.all (fun s => !truthy s.conductor_active)
  if !all_conductors_paused && !force then ⟨[], .exited 1⟩
  else
    match net.find_active_sequencer with
    | none => ⟨[], .exited 1⟩
    | some active_sequencer =>
      let r := Rpc.stopSequencer active_sequencer.node_rpc_url
      match env r with
      | _ => ⟨[r], .exited 0⟩

/-- Lookup in the membership dict `{x["id"]: x for x in servers}` built
by the commands from `cluster_membership()`: a dict comprehension keeps
the last entry for a duplicated id. -/
def memLookup (membership : List (String × Nat)) (sequencer_id : String) : Option Nat :=
  (membership.reverse.find? (fun e => e.1 == sequencer_id)).map (fun e => e.2)

/-- `remove_server` (op-conductor-ops.py 346-372), taking the membership
record the leader would serve (used only in the target-unknown branch,
where the source fetches it).  A non-2xx on the mutating call escapes
(`raise_for_status` is not wrapped); an `error` field exits 1. -/
def remove_server (net : Network) (sequencer_id : String)
    (membership : List (String × Nat)) (env : Env) : CmdOut :=
  match net.find_conductor_leader with
  | none => ⟨[], .exited 1⟩
  | some leader =>
    if (net.get_sequencer_by_id sequencer_id).isNone
        && (memLookup membership sequencer_id).isNone then ⟨[], .exited 1⟩
    else
      let r := Rpc.removeServer leader.conductor_rpc_url sequencer_id
      match env r with
      | .exn => ⟨[r], .raised⟩
      | .httpErr => ⟨[r], .raised⟩
      | .rpcError _ => ⟨[r], .exited 1⟩
      | .ok _ => ⟨[r], .exited 0⟩

/-- `int(not sequencer.voting)`: the suffrage value that agrees with the
configured voting flag (op-conductor-ops.py 393). -/
def suffrageOf (voting : Bool) : Nat :=
  if voting then 0 else 1

/-- Whether `update_cluster_membership` removes the node before re-adding
it: present in the Raft group with a suffrage different from
`int(not voting)` (op-conductor-ops.py 391-395). -/
def needsRemove (membership : List (String × Nat)) (s : Sequencer) : Bool :=
  match memLookup membership s.sequencer_id with
  | some suffrage => suffrageOf s.voting != suffrage
  | none => false

/-- The add RPC issued for one configured node, with the method chosen by
its `voting` flag (op-conductor-ops.py 400-411). -/
def addRpc (leaderUrl : String) (s : Sequencer) : Rpc :=
  if s.voting then Rpc.addServerAsVoter leaderUrl s.sequencer_id s.raft_addr
  else Rpc.addServerAsNonvoter leaderUrl s.sequencer_id s.raft_addr

/-- The per-node loop of `update_cluster_membership` (op-conductor-ops.py
390-420).  A wrong-suffrage node is first removed through a nested call
of the `remove_server` command (whose `typer.Exit` or escaped exception
propagates and aborts the whole loop); then the add RPC is posted — the
post itself is outside the `try`, so a transport error aborts, while a
non-2xx or an `error` field is only warned about and the loop continues. -/
def ucm_go (net : Network) (leader : Sequencer) (membership : List (String × Nat))
    (env : Env) : List Sequencer → List Rpc × Outcome
  | [] => ([], .exited 0)
  | s :: rest =>
    let pre : CmdOut :=
      if needsRemove membership s then remove_server net s.sequencer_id membership env
      else ⟨[], .exited 0⟩
    if pre.outcome = .exited 0 then
      let a := addRpc leader.conductor_rpc_url s
      match env a with
      | .exn => (pre.trace ++ [a], .raised)
      | _ =>
        let (tr, oc) := ucm_go net leader membership env rest
        (pre.trace ++ a :: tr, oc)
    else (pre.trace, pre.outcome)

/-- `update_cluster_membership` (op-conductor-ops.py 375-422), given the
membership record fetched from the leader.  The trailing `error` flag is
never set, so a completed loop exits 0. -/
def update_cluster_membership (net : Network) (membership : List (String × Nat))
    (env : Env) : CmdOut :=
  match net.find_conductor_leader with
  | none => ⟨[], .exited 1⟩
  | some leader =>
    let (tr, oc) := ucm_go net leader membership env net.sequencers
    ⟨tr, oc⟩

/-- Python truthiness of the `hash` value in `force_active_sequencer`:
`None` and the empty string are falsy. -/
def hashFalsy (hash : Option String) : Bool :=
  match hash with
  | none => true
  | some h => h == ""

/-- The tail of `force_active_sequencer` from the `if not hash:` check
onward (op-conductor-ops.py 500-518): abort on a falsy hash, otherwise
POST `admin_startSequencer(hash)` to the target's node endpoint
(`raise_for_status` unwrapped, `error` field exits 1). -/
def fas_start (sequencer : Sequencer) (hash : Option String) (tr : List Rpc)
    (env : Env) : CmdOut :=
  if hashFalsy hash then ⟨tr, .exited 1⟩
  else
    let r := Rpc.startSequencer sequencer.node_rpc_url (hash.getD "")
    match env r with
    | .exn => ⟨tr ++ [r], .raised⟩
    | .httpErr => ⟨tr ++ [r], .raised⟩
    | .rpcError _ => ⟨tr ++ [r], .exited 1⟩
    | .ok _ => ⟨tr ++ [r], .exited 0⟩

/-- `force_active_sequencer` (op-conductor-ops.py 466-518).  When another
sequencer is active it is stopped first and the hash returned by
`admin_stopSequencer` replaces the target's last known unsafe hash. -/
def force_active_sequencer (net : Network) (sequencer_id : String) (force : Bool)
    (env : Env) : CmdOut :=
  match net.get_sequencer_by_id sequencer_id with
  | none => ⟨[], .exited 1⟩
  | some sequencer =>
    let all_paused := net.sequencers.all (fun s => !truthy s.conductor_active)
    if !all_paused && !force then ⟨[], .exited 1⟩
    else
      match net.find_active_sequencer with
      | some active_sequencer =>
        let r := Rpc.stopSequencer active_sequencer.node_rpc_url
        match env r with
        | .exn => ⟨[r], .raised⟩
        | .httpErr => ⟨[r], .raised⟩
        | .rpcError _ => ⟨[r], .exited 1⟩
        | .ok h => fas_start sequencer (some h) [r] env
      | none => fas_start sequencer sequencer.unsafe_l2_hash [] env

/-- The `wait_for_condition` primitive (op-conductor-ops.py 521-546),
embedded over an abstract state.  `fuel` is the number of retry sleeps
the timeout budget allows.  The source evaluates the predicate first; on
failure, if the deadline has passed it exits 1 (`none` here), otherwise
it sleeps, invokes the update function when one was supplied, and loops.
The result counts the sleeps taken before success. -/
def wait_for_condition {σ : Type} (condition_func : σ → Bool)
    (update_func : Option (σ → σ)) : Nat → σ → Option Nat
  | 0, s => if condition_func s then some 0 else none
  | f + 1, s =>
    if condition_func s then some 0
    else
      let s1 := match update_func with
        | some u => u s
        | none => s
      (wait_for_condition condition_func update_func f s1).map (fun k => k + 1)

/-- The wait loop as claim C8 describes it: on every cycle the update
function runs first and the predicate is then evaluated on the updated
state.  Written from the claim's words, to be compared with
`wait_for_condition`. -/
def wait_for_condition_claimed {σ : Type} (condition_func : σ → Bool)
    (update_func : Option (σ → σ)) : Nat → σ → Option Nat
  | 0, s =>
    let s1 := match update_func with
      | some u => u s
      | none => s
    if condition_func s1 then some 0 else none
  | f + 1, s =>
    let s1 := match update_func with
      | some u => u s
      | none => s
    if condition_func s1 then some 0
    else (wait_for_condition_claimed condition_func update_func f s1).map (fun k => k + 1)

/-- `bootstrap_cluster` (op-conductor-ops.py 549-621) in the static
world.  The first wait's predicate is the aggregate `update_successful`;
a static snapshot makes it constant, so the wait returns at once or
times out.  The already-healthy early exit on lines 581-583 raises
`typer.Exit(code=0)` before any mutating RPC.  Past the precondition
checks, a non-sequencing leader is forced active through
`force_active_sequencer` (exceptions propagate); the second wait polls
`is_healthy`, which this branch has just observed false, so in the
static world it times out and exits 1 before the membership update and
resume steps. -/
def bootstrap_cluster (net : Network) (env : Env) : CmdOut :=
  if !net.update_successful then ⟨[], .exited 1⟩
  else if net.is_healthy then ⟨[], .exited 0⟩
  else
    match net.find_conductor_leader with
    | none => ⟨[], .exited 1⟩
    | some leader =>
      if truthy leader.conductor_active then ⟨[], .exited 1⟩
      else if net.sequencers.any (fun s =>
          (s.sequencer_id != leader.sequencer_id) && truthy s.sequencer_active) then
        ⟨[], .exited 1⟩
      else
        let fas : CmdOut :=
          if !truthy leader.sequencer_active then
            force_active_sequencer net leader.sequencer_id true env
          else ⟨[], .exited 0⟩
        if fas.outcome = .exited 0 then ⟨fas.trace, .exited 1⟩
        else fas

/-! Concrete fixtures used by the evaluation theorems and witnesses. -/

/-- A freshly constructed sequencer: every snapshot field unknown. -/
def seqFresh : Sequencer :=
  { sequencer_id := "s1", raft_addr := "r1", conductor_rpc_url := "cu1",
    node_rpc_url := "nu1", voting := true }

/-- A refresh cycle in which the conductor-active probe gets an HTTP 500
and every other launched probe succeeds. -/
def outHttpFail : ProbeOutcomes :=
  { conductor_active := .httpErr, conductor_leader := .ok true,
    sequencer_healthy := .ok true, sequencer_active := .ok false,
    unsafe_l2 := .ok (7, "h7"), builder_unsafe_l2 := .exn,
    rollup_boost_execution_mode := .exn }

/-- A refresh cycle in which the conductor-active probe raises (transport
error) and every other launched probe succeeds. -/
def outExnFail : ProbeOutcomes :=
  { conductor_active := .exn, conductor_leader := .ok true,
    sequencer_healthy := .ok true, sequencer_active := .ok false,
    unsafe_l2 := .ok (7, "h7"), builder_unsafe_l2 := .exn,
    rollup_boost_execution_mode := .exn }

/-- The current leader; its conductor is paused (`conductor_active` is
observed `False`). -/
def seqL : Sequencer :=
  { sequencer_id := "L", raft_addr := "rL", conductor_rpc_url := "cuL",
    node_rpc_url := "nuL", voting := true, conductor_active := some false,
    conductor_leader := some true, sequencer_healthy := some true,
    sequencer_active := some true, update_successful := true }

/-- A healthy, voting, conductor-active transfer target. -/
def seqT : Sequencer :=
  { sequencer_id := "T", raft_addr := "rT", conductor_rpc_url := "cuT",
    node_rpc_url := "nuT", voting := true, conductor_active := some true,
    conductor_leader := some false, sequencer_healthy := some true,
    sequencer_active := some false, update_successful := true }

/-- A two-member network whose leader `seqL` has a paused conductor. -/
def netLT : Network := { name := "n", sequencers := [seqL, seqT] }

/-- An environment in which every mutating RPC succeeds. -/
def envAllOk : Env := fun _ => .ok ""

/-- An environment in which every mutating RPC returns 2xx with an
RPC-level `error` field. -/
def envAllRpcError : Env := fun _ => .rpcError "boom"

/-- A one-member network that is healthy, fully refreshed, with a paused
conductor and an active sequencer. -/
def netHealthy : Network := { name := "h", sequencers :=
  [{ sequencer_id := "s", raft_addr := "r", conductor_rpc_url := "cu",
     node_rpc_url := "nu", voting := true, conductor_active := some false,
     conductor_leader := some true, sequencer_healthy := some true,
     sequencer_active := some true, update_successful := true }] }

/-- A non-voting configured node. -/
def seqA : Sequencer :=
  { sequencer_id := "A", raft_addr := "rA", conductor_rpc_url := "cuA",
    node_rpc_url := "nuA", voting := false }

/-- A voting configured node, absent from the sample Raft membership. -/
def seqB : Sequencer :=
  { sequencer_id := "B", raft_addr := "rB", conductor_rpc_url := "cuB",
    node_rpc_url := "nuB", voting := true }

/-- A three-member network with leader `seqL`, non-voter `seqA` and
voter `seqB`. -/
def netLAB : Network := { name := "c", sequencers := [seqL, seqA, seqB] }

/-- A sample Raft membership: `L` a voter with matching suffrage, `A`
recorded as voter although configured non-voting, `B` absent. -/
def memLAB : List (String × Nat) := [("L", 0), ("A", 0)]

/-! Claim theorems. -/

/-- Claim C1 (code bug): `Sequencer.update` is meant to leave
`update_successful` true iff every probe of the cycle succeeded, but the
probes swallow HTTP-status failures (`return None`), so such a failed
probe still counts as a successful future, and the flag is reassigned on
every completed future, so the status of the last completed future wins.
Concretely: with the conductor-active probe failing with an HTTP error
(or raising, when it completes before a succeeding sibling), the refresh
ends with `update_successful = true` while the probe's field is still
unknown. -/
theorem sequencer_update_successful_despite_failed_probe :
    (Sequencer.update seqFresh outHttpFail (launchedProbes seqFresh)).update_successful = true
    ∧ (Sequencer.update seqFresh outHttpFail (launchedProbes seqFresh)).conductor_active = none
    ∧ (Sequencer.update seqFresh outExnFail (launchedProbes seqFresh)).update_successful = true
    ∧ (Sequencer.update seqFresh outExnFail (launchedProbes seqFresh)).conductor_active = none := by
  decide

/-- Claim C2 (code bug): with `force` unset and the current leader's
conductor paused, `transfer_leader` prints the precondition error but
has no `raise` on that branch (unlike the two sibling checks), so the
`conductor_transferLeaderToServer` RPC is still issued and the command
exits 0. -/
theorem transfer_leader_paused_leader_still_issues_rpc :
    truthy seqL.conductor_active = false
    ∧ netLT.find_conductor_leader = some seqL
    ∧ transfer_leader netLT "T" false envAllOk =
        ⟨[Rpc.transferLeaderToServer "cuL" "T" "rT"], .exited 0⟩ := by
  decide

/-- Claim C4 (code bug): `pause` and `resume` initialize an `error` flag
that no failure path ever sets, and `halt_sequencer` catches every
failure of its mutating RPC and only warns; so when every mutating RPC
reports an RPC-level error, all three commands still exit 0. -/
theorem mutation_failures_still_exit_zero :
    envAllRpcError (Rpc.pauseRpc "cuL") = .rpcError "boom"
    ∧ pause netLT none envAllRpcError =
        ⟨[Rpc.pauseRpc "cuL", Rpc.pauseRpc "cuT"], .exited 0⟩
    ∧ resume netLT none envAllRpcError =
        ⟨[Rpc.resumeRpc "cuL", Rpc.resumeRpc "cuT"], .exited 0⟩
    ∧ halt_sequencer netHealthy false envAllRpcError =
        ⟨[Rpc.stopSequencer "nu"], .exited 0⟩ := by
  decide

/-- Claim C6: when the refresh of every member succeeded and every
member reports healthy, `bootstrap_cluster` passes the first wait
immediately and takes the already-healthy early exit: no mutating RPC is
issued and the command exits 0. -/
theorem bootstrap_cluster_healthy_is_noop (net : Network) (env : Env)
    (h1 : net.update_successful = true) (h2 : net.is_healthy = true) :
    bootstrap_cluster net env = ⟨[], .exited 0⟩ := by
  simp [bootstrap_cluster, h1, h2]

/-- Witness for `bootstrap_cluster_healthy_is_noop` on a concrete
healthy network. -/
theorem bootstrap_cluster_healthy_is_noop_witness :
    bootstrap_cluster netHealthy envAllOk = ⟨[], .exited 0⟩ :=
  bootstrap_cluster_healthy_is_noop netHealthy envAllOk (by decide) (by decide)

/-- Claim C7: whatever the `force` flag, `transfer_leader` to a target
whose configured `voting` is false aborts with exit code 1 before
issuing any RPC (the non-voter check precedes the force-guarded checks
and the POST). -/
theorem transfer_leader_rejects_nonvoter (net : Network) (sequencer_id : String)
    (force : Bool) (env : Env) (leader s : Sequencer)
    (hl : net.find_conductor_leader = some leader)
    (hs : net.get_sequencer_by_id sequencer_id = some s)
    (hv : s.voting = false) :
    transfer_leader net sequencer_id force env = ⟨[], .exited 1⟩ := by
  simp [transfer_leader, hl, hs, hv]

/-- Witness for `transfer_leader_rejects_nonvoter`: non-voter `A`, with
`force` set, on a network with a resolvable leader. -/
theorem transfer_leader_rejects_nonvoter_witness :
    transfer_leader netLAB "A" true envAllOk = ⟨[], .exited 1⟩ :=
  transfer_leader_rejects_nonvoter netLAB "A" true envAllOk seqL seqA
    (by decide) (by decide) (by decide)

/-- Claim C10: with a resolvable leader and a target id absent from the
network, `transfer_leader` raises (the eagerly evaluated debug f-string
dereferences the `None` target) before the dedicated not-found error
path, and no RPC is issued. -/
theorem transfer_leader_absent_target_raises (net : Network) (sequencer_id : String)
    (force : Bool) (env : Env) (leader : Sequencer)
    (hl : net.find_conductor_leader = some leader)
    (hs : net.get_sequencer_by_id sequencer_id = none) :
    transfer_leader net sequencer_id force env = ⟨[], .raised⟩ := by
  simp [transfer_leader, hl, hs]

/-- Witness for `transfer_leader_absent_target_raises` on a concrete
network with an unknown target id. -/
theorem transfer_leader_absent_target_raises_witness :
    transfer_leader netLT "absent" false envAllOk = ⟨[], .raised⟩ :=
  transfer_leader_absent_target_raises netLT "absent" false envAllOk seqL
    (by decide) (by decide)

/-- The update function applied j times, i.e. the state seen by the j-th
evaluation of the predicate inside `wait_for_condition` (the 0-th
evaluation sees the initial state, before any update). -/
def iterUpd {σ : Type} (u : σ → σ) : Nat → σ → σ
  | 0, s => s
  | k + 1, s => iterUpd u k (u s)

/-- Claim C8 counterexample: on a state where the predicate is false
before the update but true after it, the source loop (predicate first)
sleeps once and returns after one retry, while the loop the claim
describes (update first, predicate second) would return immediately;
so the claim's ordering does not describe `wait_for_condition`. -/
theorem wait_for_condition_not_update_first :
    wait_for_condition (fun n => n == 1) (some (fun n => n + 1)) 5 0 = some 1
    ∧ wait_for_condition_claimed (fun n => n == 1) (some (fun n => n + 1)) 5 0 = some 0
    ∧ wait_for_condition (fun n => n == 1) (some (fun n => n + 1)) 5 0
        ≠ wait_for_condition_claimed (fun n => n == 1) (some (fun n => n + 1)) 5 0 := by
  decide

/-- Claim C8 as amended: `wait_for_condition` evaluates the predicate
first, on the raw state; the update function runs only after a sleep,
before each re-evaluation.  Hence if the predicate first becomes true
after exactly k updates, the call succeeds with k sleeps when the budget
allows k sleeps, and otherwise the elapsed timeout is a hard failure
(`none`), with no further retry. -/
theorem wait_for_condition_first_hit {σ : Type} (condition_func : σ → Bool)
    (u : σ → σ) (fuel : Nat) (s : σ) (k : Nat)
    (h1 : condition_func (iterUpd u k s) = true)
    (h2 : ∀ j, j < k → condition_func (iterUpd u j s) = false) :
    wait_for_condition condition_func (some u) fuel s =
      if k ≤ fuel then some k else none := by
  induction k generalizing fuel s with
  | zero =>
    have hc : condition_func s = true := h1
    cases fuel with
    | zero => simp [wait_for_condition, hc]
    | succ f => simp [wait_for_condition, hc]
  | succ k ih =>
    have hc : condition_func s = false := h2 0 (Nat.succ_pos k)
    cases fuel with
    | zero => simp [wait_for_condition, hc]
    | succ f =>
      have h1' : condition_func (iterUpd u k (u s)) = true := h1
      have h2' : ∀ j, j < k → condition_func (iterUpd u j (u s)) = false :=
        fun j hj => h2 (j + 1) (Nat.succ_lt_succ hj)
      have hrec := ih f (u s) h1' h2'
      by_cases hk : k ≤ f
      · simp [wait_for_condition, hc, hrec, hk, Nat.succ_le_succ hk]
      · have hk2 : ¬ k + 1 ≤ f + 1 := fun h => hk (Nat.le_of_succ_le_succ h)
        simp [wait_for_condition, hc, hrec, hk, hk2]

/-- Witness for `wait_for_condition_first_hit`: the predicate first
holds after two updates, and the call returns after two sleeps. -/
theorem wait_for_condition_first_hit_witness :
    wait_for_condition (fun n => n == 2) (some (fun n => n + 1)) 5 0 =
      if 2 ≤ 5 then some 2 else none :=
  wait_for_condition_first_hit (fun n => n == 2) (fun n => n + 1) 5 0 2
    (by decide) (by decide)

/-- A third conductor endpoint, used to show the pause loop aborting
before reaching it. -/
def seqU3 : Sequencer :=
  { sequencer_id := "U3", raft_addr := "rU3", conductor_rpc_url := "cu3",
    node_rpc_url := "nu3", voting := true }

/-- A three-member network for the pause partial-failure scenario. -/
def net3 : Network := { name := "three", sequencers := [seqL, seqT, seqU3] }

/-- An environment where the POST of `conductor_pause` to the second
node's endpoint raises a transport error and everything else succeeds. -/
def envExnSecond : Env := fun r => if r = Rpc.pauseRpc "cuT" then .exn else .ok ""

/-- Claim C9 counterexample: when the `conductor_pause` POST to node 2
raises a transport error, the exception escapes (the POST is outside the
`try`), the command dies, and node 3 never receives its RPC — so a
transport-level single-node failure does stop processing. -/
theorem pause_transport_error_stops_processing :
    pause net3 none envExnSecond =
      ⟨[Rpc.pauseRpc "cuL", Rpc.pauseRpc "cuT"], .raised⟩
    ∧ Rpc.pauseRpc "cu3" ∉ (pause net3 none envExnSecond).trace := by
  decide

/-- The pause loop issues every node's RPC in order and never aborts as
long as no POST raises a transport error (non-2xx statuses and RPC-level
error fields are caught per node). -/
theorem pause_go_no_exn (env : Env) (l : List Sequencer)
    (h : ∀ s ∈ l, env (Rpc.pauseRpc s.conductor_rpc_url) ≠ .exn) :
    pause_go env l = (l.map (fun s => Rpc.pauseRpc s.conductor_rpc_url), false) := by
  induction l with
  | nil => rfl
  | cons s rest ih =>
    have hs := h s (List.mem_cons_self s rest)
    have hrest : ∀ t ∈ rest, env (Rpc.pauseRpc t.conductor_rpc_url) ≠ .exn :=
      fun t ht => h t (List.mem_cons_of_mem s ht)
    cases henv : env (Rpc.pauseRpc s.conductor_rpc_url) with
    | exn => exact absurd henv hs
    | httpErr => simp [pause_go, henv, ih hrest]
    | rpcError m => simp [pause_go, henv, ih hrest]
    | ok r => simp [pause_go, henv, ih hrest]

/-- The resume loop, same property as `pause_go_no_exn`. -/
theorem resume_go_no_exn (env : Env) (l : List Sequencer)
    (h : ∀ s ∈ l, env (Rpc.resumeRpc s.conductor_rpc_url) ≠ .exn) :
    resume_go env l = (l.map (fun s => Rpc.resumeRpc s.conductor_rpc_url), false) := by
  induction l with
  | nil => rfl
  | cons s rest ih =>
    have hs := h s (List.mem_cons_self s rest)
    have hrest : ∀ t ∈ rest, env (Rpc.resumeRpc t.conductor_rpc_url) ≠ .exn :=
      fun t ht => h t (List.mem_cons_of_mem s ht)
    cases henv : env (Rpc.resumeRpc s.conductor_rpc_url) with
    | exn => exact absurd henv hs
    | httpErr => simp [resume_go, henv, ih hrest]
    | rpcError m => simp [resume_go, henv, ih hrest]
    | ok r => simp [resume_go, henv, ih hrest]

/-- Claim C9 as amended: for `pause` and `resume` over every node, a
node failure surfaced as a non-2xx status or an RPC-level error field is
reported for that node and does not stop processing — every selected
node still receives its RPC, in list order — while a transport-level
exception from the POST itself escapes and aborts the loop.  Under a
no-transport-error environment both commands issue the RPC to every node
and return normally. -/
theorem pause_resume_isolated_failures (net : Network) (env : Env)
    (hp : ∀ s ∈ net.sequencers, env (Rpc.pauseRpc s.conductor_rpc_url) ≠ .exn)
    (hr : ∀ s ∈ net.sequencers, env (Rpc.resumeRpc s.conductor_rpc_url) ≠ .exn) :
    pause net none env =
      ⟨net.sequencers.map (fun s => Rpc.pauseRpc s.conductor_rpc_url), .exited 0⟩
    ∧ resume net none env =
      ⟨net.sequencers.map (fun s => Rpc.resumeRpc s.conductor_rpc_url), .exited 0⟩ := by
  constructor
  · simp [pause, pause_go_no_exn env net.sequencers hp]
  · simp [resume, resume_go_no_exn env net.sequencers hr]

/-- Witness for `pause_resume_isolated_failures`: a three-node network
in which one node answers each RPC with an RPC-level error field; all
three nodes still receive both RPCs. -/
theorem pause_resume_isolated_failures_witness :
    pause net3 none (fun r => if r = Rpc.pauseRpc "cuT" then .rpcError "e" else .ok "") =
      ⟨[Rpc.pauseRpc "cuL", Rpc.pauseRpc "cuT", Rpc.pauseRpc "cu3"], .exited 0⟩
    ∧ resume net3 none (fun r => if r = Rpc.pauseRpc "cuT" then .rpcError "e" else .ok "") =
      ⟨[Rpc.resumeRpc "cuL", Rpc.resumeRpc "cuT", Rpc.resumeRpc "cu3"], .exited 0⟩ :=
  pause_resume_isolated_failures net3
    (fun r => if r = Rpc.pauseRpc "cuT" then .rpcError "e" else .ok "")
    (by decide) (by decide)

/-- The value a snapshot field holds after its probe completes: the
probed value on success, the previous value otherwise (the probe either
returned early before the assignment or raised before it). -/
def probeVal {α : Type} (old : Option α) : ProbeResult α → Option α
  | .ok v => some v
  | _ => old

/-- Field value after a sync-status probe, number component. -/
def probeValFst (old : Option Nat) : ProbeResult (Nat × String) → Option Nat
  | .ok v => some v.1
  | _ => old

/-- Field value after a sync-status probe, hash component. -/
def probeValSnd (old : Option String) : ProbeResult (Nat × String) → Option String
  | .ok v => some v.2
  | _ => old

theorem probeVal_idem {α : Type} (old : Option α) (r : ProbeResult α) :
    probeVal (probeVal old r) r = probeVal old r := by
  cases r <;> rfl

theorem probeValFst_idem (old : Option Nat) (r : ProbeResult (Nat × String)) :
    probeValFst (probeValFst old r) r = probeValFst old r := by
  cases r <;> rfl

theorem probeValSnd_idem (old : Option String) (r : ProbeResult (Nat × String)) :
    probeValSnd (probeValSnd old r) r = probeValSnd old r := by
  cases r <;> rfl

/-- Processing the completed probes in any order: a projection that only
the probe `pid` writes (with an idempotent effect `eff`) ends as
`eff` of the old value iff `pid` was among the processed probes. -/
theorem foldl_applyProbe_field {α : Type} (out : ProbeOutcomes)
    (proj : Sequencer → α) (pid : ProbeId) (eff : α → α)
    (happly : ∀ s p, proj (applyProbe out s p) = if p = pid then eff (proj s) else proj s)
    (hidem : ∀ a, eff (eff a) = eff a) :
    ∀ (order : List ProbeId) (s : Sequencer),
      proj (order.foldl (applyProbe out) s) =
        if pid ∈ order then eff (proj s) else proj s := by
  intro order
  induction order with
  | nil => intro s; simp
  | cons p rest ih =>
    intro s
    rw [List.foldl_cons, ih]
    by_cases hp : p = pid
    · subst hp
      simp [happly, hidem, List.mem_cons]
    · simp [happly, hp, List.mem_cons, Ne.symm hp]

/-- Claim C3 counterexample: a sequencer whose previous refresh observed
`sequencer_active = True` runs a refresh in which the
`admin_sequencerActive` probe fails with a non-2xx status; after the
refresh the field still reads the stale `True`, not unknown — snapshot
fields are not overwritten wholesale. -/
def seqStale : Sequencer :=
  { seqFresh with sequencer_active := some true, conductor_active := some true }

/-- A refresh cycle whose sequencer-active probe fails with an HTTP
error while every other launched probe succeeds. -/
def outActiveFail : ProbeOutcomes :=
  { conductor_active := .ok true, conductor_leader := .ok false,
    sequencer_healthy := .ok true, sequencer_active := .httpErr,
    unsafe_l2 := .ok (9, "h9"), builder_unsafe_l2 := .exn,
    rollup_boost_execution_mode := .exn }

/-- Claim C3 counterexample (see `seqStale`): the field whose probe
failed retains the value observed in the earlier refresh. -/
theorem sequencer_update_keeps_stale_value_on_probe_failure :
    (Sequencer.update seqStale outActiveFail (launchedProbes seqStale)).sequencer_active = some true
    ∧ (Sequencer.update seqStale outActiveFail (launchedProbes seqStale)).sequencer_active ≠ none := by
  decide

/-- Claim C3 as amended: whatever the completion order of the probes of
one refresh, each snapshot field is overwritten only by its own probe
and only on success; a failed probe (HTTP error or raised exception)
leaves its field unchanged, so the field keeps the value of the last
successful refresh and reads unknown only if it was never successfully
probed.  The builder and rollup-boost fields are touched only when their
endpoint is configured. -/
theorem sequencer_update_overwrites_only_on_success
    (s : Sequencer) (out : ProbeOutcomes) (order : List ProbeId)
    (hperm : order.Perm (launchedProbes s)) :
    (Sequencer.update s out order).conductor_active
        = probeVal s.conductor_active out.conductor_active
    ∧ (Sequencer.update s out order).conductor_leader
        = probeVal s.conductor_leader out.conductor_leader
    ∧ (Sequencer.update s out order).sequencer_healthy
        = probeVal s.sequencer_healthy out.sequencer_healthy
    ∧ (Sequencer.update s out order).sequencer_active
        = probeVal s.sequencer_active out.sequencer_active
    ∧ (Sequencer.update s out order).unsafe_l2_number
        = probeValFst s.unsafe_l2_number out.unsafe_l2
    ∧ (Sequencer.update s out order).unsafe_l2_hash
        = probeValSnd s.unsafe_l2_hash out.unsafe_l2
    ∧ (Sequencer.update s out order).builder_unsafe_l2_number
        = (if optTruthy s.builder_rpc_url = true
           then probeValFst s.builder_unsafe_l2_number out.builder_unsafe_l2
           else s.builder_unsafe_l2_number)
    ∧ (Sequencer.update s out order).builder_unsafe_l2_hash
        = (if optTruthy s.builder_rpc_url = true
           then probeValSnd s.builder_unsafe_l2_hash out.builder_unsafe_l2
           else s.builder_unsafe_l2_hash)
    ∧ (Sequencer.update s out order).rollup_boost_execution_mode
        = (if optTruthy s.rollup_boost_rpc_url = true
           then probeVal s.rollup_boost_execution_mode out.rollup_boost_execution_mode
           else s.rollup_boost_execution_mode) := by
  have hca : ∀ (t : Sequencer) (p : ProbeId),
      (applyProbe out t p).conductor_active =
        if p = ProbeId.conductor_active
        then probeVal t.conductor_active out.conductor_active
        else t.conductor_active := by
    intro t p
    cases p <;> simp only [applyProbe] <;>
      first
      | (cases out.conductor_active <;> rfl)
      | (cases out.conductor_leader <;> rfl)
      | (cases out.sequencer_healthy <;> rfl)
      | (cases out.sequencer_active <;> rfl)
      | (cases out.unsafe_l2 <;> rfl)
      | (cases out.builder_unsafe_l2 <;> rfl)
      | (cases out.rollup_boost_execution_mode <;> rfl)
  have hcl : ∀ (t : Sequencer) (p : ProbeId),
      (applyProbe out t p).conductor_leader =
        if p = ProbeId.conductor_leader
        then probeVal t.conductor_leader out.conductor_leader
        else t.conductor_leader := by
    intro t p
    cases p <;> simp only [applyProbe] <;>
      first
      | (cases out.conductor_active <;> rfl)
      | (cases out.conductor_leader <;> rfl)
      | (cases out.sequencer_healthy <;> rfl)
      | (cases out.sequencer_active <;> rfl)
      | (cases out.unsafe_l2 <;> rfl)
      | (cases out.builder_unsafe_l2 <;> rfl)
      | (cases out.rollup_boost_execution_mode <;> rfl)
  have hsh : ∀ (t : Sequencer) (p : ProbeId),
      (applyProbe out t p).sequencer_healthy =
        if p = ProbeId.sequencer_healthy
        then probeVal t.sequencer_healthy out.sequencer_healthy
        else t.sequencer_healthy := by
    intro t p
    cases p <;> simp only [applyProbe] <;>
      first
      | (cases out.conductor_active <;> rfl)
      | (cases out.conductor_leader <;> rfl)
      | (cases out.sequencer_healthy <;> rfl)
      | (cases out.sequencer_active <;> rfl)
      | (cases out.unsafe_l2 <;> rfl)
      | (cases out.builder_unsafe_l2 <;> rfl)
      | (cases out.rollup_boost_execution_mode <;> rfl)
  have hsa : ∀ (t : Sequencer) (p : ProbeId),
      (applyProbe out t p).sequencer_active =
        if p = ProbeId.sequencer_active
        then probeVal t.sequencer_active out.sequencer_active
        else t.sequencer_active := by
    intro t p
    cases p <;> simp only [applyProbe] <;>
      first
      | (cases out.conductor_active <;> rfl)
      | (cases out.conductor_leader <;> rfl)
      | (cases out.sequencer_healthy <;> rfl)
      | (cases out.sequencer_active <;> rfl)
      | (cases out.unsafe_l2 <;> rfl)
      | (cases out.builder_unsafe_l2 <;> rfl)
      | (cases out.rollup_boost_execution_mode <;> rfl)
  have hun : ∀ (t : Sequencer) (p : ProbeId),
      (applyProbe out t p).unsafe_l2_number =
        if p = ProbeId.unsafe_l2
        then probeValFst t.unsafe_l2_number out.unsafe_l2
        else t.unsafe_l2_number := by
    intro t p
    cases p <;> simp only [applyProbe] <;>
      first
      | (cases out.conductor_active <;> rfl)
      | (cases out.conductor_leader <;> rfl)
      | (cases out.sequencer_healthy <;> rfl)
      | (cases out.sequencer_active <;> rfl)
      | (cases out.unsafe_l2 <;> rfl)
      | (cases out.builder_unsafe_l2 <;> rfl)
      | (cases out.rollup_boost_execution_mode <;> rfl)
  have huh : ∀ (t : Sequencer) (p : ProbeId),
      (applyProbe out t p).unsafe_l2_hash =
        if p = ProbeId.unsafe_l2
        then probeValSnd t.unsafe_l2_hash out.unsafe_l2
        else t.unsafe_l2_hash := by
    intro t p
    cases p <;> simp only [applyProbe] <;>
      first
      | (cases out.conductor_active <;> rfl)
      | (cases out.conductor_leader <;> rfl)
      | (cases out.sequencer_healthy <;> rfl)
      | (cases out.sequencer_active <;> rfl)
      | (cases out.unsafe_l2 <;> rfl)
      | (cases out.builder_unsafe_l2 <;> rfl)
      | (cases out.rollup_boost_execution_mode <;> rfl)
  have hbn : ∀ (t : Sequencer) (p : ProbeId),
      (applyProbe out t p).builder_unsafe_l2_number =
        if p = ProbeId.builder_unsafe_l2
        then probeValFst t.builder_unsafe_l2_number out.builder_unsafe_l2
        else t.builder_unsafe_l2_number := by
    intro t p
    cases p <;> simp only [applyProbe] <;>
      first
      | (cases out.conductor_active <;> rfl)
      | (cases out.conductor_leader <;> rfl)
      | (cases out.sequencer_healthy <;> rfl)
      | (cases out.sequencer_active <;> rfl)
      | (cases out.unsafe_l2 <;> rfl)
      | (cases out.builder_unsafe_l2 <;> rfl)
      | (cases out.rollup_boost_execution_mode <;> rfl)
  have hbh : ∀ (t : Sequencer) (p : ProbeId),
      (applyProbe out t p).builder_unsafe_l2_hash =
        if p = ProbeId.builder_unsafe_l2
        then probeValSnd t.builder_unsafe_l2_hash out.builder_unsafe_l2
        else t.builder_unsafe_l2_hash := by
    intro t p
    cases p <;> simp only [applyProbe] <;>
      first
      | (cases out.conductor_active <;> rfl)
      | (cases out.conductor_leader <;> rfl)
      | (cases out.sequencer_healthy <;> rfl)
      | (cases out.sequencer_active <;> rfl)
      | (cases out.unsafe_l2 <;> rfl)
      | (cases out.builder_unsafe_l2 <;> rfl)
      | (cases out.rollup_boost_execution_mode <;> rfl)
  have hrb : ∀ (t : Sequencer) (p : ProbeId),
      (applyProbe out t p).rollup_boost_execution_mode =
        if p = ProbeId.rollup_boost_execution_mode
        then probeVal t.rollup_boost_execution_mode out.rollup_boost_execution_mode
        else t.rollup_boost_execution_mode := by
    intro t p
    cases p <;> simp only [applyProbe] <;>
      first
      | (cases out.conductor_active <;> rfl)
      | (cases out.conductor_leader <;> rfl)
      | (cases out.sequencer_healthy <;> rfl)
      | (cases out.sequencer_active <;> rfl)
      | (cases out.unsafe_l2 <;> rfl)
      | (cases out.builder_unsafe_l2 <;> rfl)
      | (cases out.rollup_boost_execution_mode <;> rfl)
  have hmem : ∀ p : ProbeId, p ∈ order ↔ p ∈ launchedProbes s := fun p => hperm.mem_iff
  have hmem_ca : ProbeId.conductor_active ∈ order := by
    rw [hmem]; simp [launchedProbes]
  have hmem_cl : ProbeId.conductor_leader ∈ order := by
    rw [hmem]; simp [launchedProbes]
  have hmem_sh : ProbeId.sequencer_healthy ∈ order := by
    rw [hmem]; simp [launchedProbes]
  have hmem_sa : ProbeId.sequencer_active ∈ order := by
    rw [hmem]; simp [launchedProbes]
  have hmem_ul : ProbeId.unsafe_l2 ∈ order := by
    rw [hmem]; simp [launchedProbes]
  have hmem_b : (ProbeId.builder_unsafe_l2 ∈ order) ↔ optTruthy s.builder_rpc_url = true := by
    rw [hmem]
    cases hb : optTruthy s.builder_rpc_url <;>
      cases hr : optTruthy s.rollup_boost_rpc_url <;>
        simp [launchedProbes, hb, hr]
  have hmem_r : (ProbeId.rollup_boost_execution_mode ∈ order)
      ↔ optTruthy s.rollup_boost_rpc_url = true := by
    rw [hmem]
    cases hb : optTruthy s.builder_rpc_url <;>
      cases hr : optTruthy s.rollup_boost_rpc_url <;>
        simp [launchedProbes, hb, hr]
  refine ⟨?_, ?_, ?_, ?_, ?_, ?_, ?_, ?_, ?_⟩
  · rw [Sequencer.update,
      foldl_applyProbe_field out (fun t => t.conductor_active) ProbeId.conductor_active
        (fun a => probeVal a out.conductor_active) hca
        (fun a => probeVal_idem a out.conductor_active) order s,
      if_pos hmem_ca]
  · rw [Sequencer.update,
      foldl_applyProbe_field out (fun t => t.conductor_leader) ProbeId.conductor_leader
        (fun a => probeVal a out.conductor_leader) hcl
        (fun a => probeVal_idem a out.conductor_leader) order s,
      if_pos hmem_cl]
  · rw [Sequencer.update,
      foldl_applyProbe_field out (fun t => t.sequencer_healthy) ProbeId.sequencer_healthy
        (fun a => probeVal a out.sequencer_healthy) hsh
        (fun a => probeVal_idem a out.sequencer_healthy) order s,
      if_pos hmem_sh]
  · rw [Sequencer.update,
      foldl_applyProbe_field out (fun t => t.sequencer_active) ProbeId.sequencer_active
        (fun a => probeVal a out.sequencer_active) hsa
        (fun a => probeVal_idem a out.sequencer_active) order s,
      if_pos hmem_sa]
  · rw [Sequencer.update,
      foldl_applyProbe_field out (fun t => t.unsafe_l2_number) ProbeId.unsafe_l2
        (fun a => probeValFst a out.unsafe_l2) hun
        (fun a => probeValFst_idem a out.unsafe_l2) order s,
      if_pos hmem_ul]
  · rw [Sequencer.update,
      foldl_applyProbe_field out (fun t => t.unsafe_l2_hash) ProbeId.unsafe_l2
        (fun a => probeValSnd a out.unsafe_l2) huh
        (fun a => probeValSnd_idem a out.unsafe_l2) order s,
      if_pos hmem_ul]
  · rw [Sequencer.update,
      foldl_applyProbe_field out (fun t => t.builder_unsafe_l2_number) ProbeId.builder_unsafe_l2
        (fun a => probeValFst a out.builder_unsafe_l2) hbn
        (fun a => probeValFst_idem a out.builder_unsafe_l2) order s]
    by_cases hb : optTruthy s.builder_rpc_url = true
    · rw [if_pos (hmem_b.mpr hb), if_pos hb]
    · rw [if_neg (fun h => hb (hmem_b.mp h)), if_neg hb]
  · rw [Sequencer.update,
      foldl_applyProbe_field out (fun t => t.builder_unsafe_l2_hash) ProbeId.builder_unsafe_l2
        (fun a => probeValSnd a out.builder_unsafe_l2) hbh
        (fun a => probeValSnd_idem a out.builder_unsafe_l2) order s]
    by_cases hb : optTruthy s.builder_rpc_url = true
    · rw [if_pos (hmem_b.mpr hb), if_pos hb]
    · rw [if_neg (fun h => hb (hmem_b.mp h)), if_neg hb]
  · rw [Sequencer.update,
      foldl_applyProbe_field out (fun t => t.rollup_boost_execution_mode)
        ProbeId.rollup_boost_execution_mode
        (fun a => probeVal a out.rollup_boost_execution_mode) hrb
        (fun a => probeVal_idem a out.rollup_boost_execution_mode) order s]
    by_cases hr : optTruthy s.rollup_boost_rpc_url = true
    · rw [if_pos (hmem_r.mpr hr), if_pos hr]
    · rw [if_neg (fun h => hr (hmem_r.mp h)), if_neg hr]

/-- A completion order distinct from the submission order, for the
witness below. -/
def orderShuffled : List ProbeId :=
  [ProbeId.unsafe_l2, ProbeId.conductor_active, ProbeId.sequencer_active,
   ProbeId.conductor_leader, ProbeId.sequencer_healthy]

/-- Witness for `sequencer_update_overwrites_only_on_success` on a
concrete sequencer, outcome set and shuffled completion order. -/
theorem sequencer_update_overwrites_only_on_success_witness :
    (Sequencer.update seqStale outActiveFail orderShuffled).conductor_active
        = probeVal seqStale.conductor_active outActiveFail.conductor_active
    ∧ (Sequencer.update seqStale outActiveFail orderShuffled).conductor_leader
        = probeVal seqStale.conductor_leader outActiveFail.conductor_leader
    ∧ (Sequencer.update seqStale outActiveFail orderShuffled).sequencer_healthy
        = probeVal seqStale.sequencer_healthy outActiveFail.sequencer_healthy
    ∧ (Sequencer.update seqStale outActiveFail orderShuffled).sequencer_active
        = probeVal seqStale.sequencer_active outActiveFail.sequencer_active
    ∧ (Sequencer.update seqStale outActiveFail orderShuffled).unsafe_l2_number
        = probeValFst seqStale.unsafe_l2_number outActiveFail.unsafe_l2
    ∧ (Sequencer.update seqStale outActiveFail orderShuffled).unsafe_l2_hash
        = probeValSnd seqStale.unsafe_l2_hash outActiveFail.unsafe_l2
    ∧ (Sequencer.update seqStale outActiveFail orderShuffled).builder_unsafe_l2_number
        = (if optTruthy seqStale.builder_rpc_url = true
           then probeValFst seqStale.builder_unsafe_l2_number outActiveFail.builder_unsafe_l2
           else seqStale.builder_unsafe_l2_number)
    ∧ (Sequencer.update seqStale outActiveFail orderShuffled).builder_unsafe_l2_hash
        = (if optTruthy seqStale.builder_rpc_url = true
           then probeValSnd seqStale.builder_unsafe_l2_hash outActiveFail.builder_unsafe_l2
           else seqStale.builder_unsafe_l2_hash)
    ∧ (Sequencer.update seqStale outActiveFail orderShuffled).rollup_boost_execution_mode
        = (if optTruthy seqStale.rollup_boost_rpc_url = true
           then probeVal seqStale.rollup_boost_execution_mode outActiveFail.rollup_boost_execution_mode
           else seqStale.rollup_boost_execution_mode) :=
  sequencer_update_overwrites_only_on_success seqStale outActiveFail orderShuffled
    (by decide)

/-- Number of occurrences of the RPC `r` in a trace. -/
def countRpc (r : Rpc) (l : List Rpc) : Nat :=
  (l.filter (fun x => decide (x = r))).length

theorem countRpc_nil (r : Rpc) : countRpc r [] = 0 := rfl

theorem countRpc_cons (r x : Rpc) (l : List Rpc) :
    countRpc r (x :: l) = (if x = r then 1 else 0) + countRpc r l := by
  by_cases h : x = r <;> simp [countRpc, List.filter_cons, h, Nat.add_comm]

theorem countRpc_append (r : Rpc) (l1 l2 : List Rpc) :
    countRpc r (l1 ++ l2) = countRpc r l1 + countRpc r l2 := by
  simp [countRpc, List.filter_append]

/-- Two add RPCs for configured nodes with different ids are different
RPCs, whatever the voting methods. -/
theorem addRpc_ne_of_id_ne (u : String) (s t : Sequencer)
    (h : s.sequencer_id ≠ t.sequencer_id) : addRpc u s ≠ addRpc u t := by
  unfold addRpc
  by_cases hs : s.voting <;> by_cases ht : t.voting <;> simp [hs, ht, h]

/-- A remove RPC is never an add RPC. -/
theorem removeServer_ne_addRpc (u1 u2 i : String) (s : Sequencer) :
    Rpc.removeServer u1 i ≠ addRpc u2 s := by
  unfold addRpc
  by_cases hs : s.voting <;> simp [hs]

/-- The RPCs `update_cluster_membership` issues for one configured node:
the conditional removal followed by the add with the voting-chosen
method. -/
def ucmPlanned (leaderUrl : String) (membership : List (String × Nat))
    (s : Sequencer) : List Rpc :=
  (if needsRemove membership s then [Rpc.removeServer leaderUrl s.sequencer_id] else [])
  ++ [addRpc leaderUrl s]

/-- The full trace of `update_cluster_membership` over a node list when
no call fails. -/
def ucmTrace (leaderUrl : String) (membership : List (String × Nat)) :
    List Sequencer → List Rpc
  | [] => []
  | s :: rest => ucmPlanned leaderUrl membership s ++ ucmTrace leaderUrl membership rest

/-- A configured member is always found by `get_sequencer_by_id` under
its own id. -/
theorem get_sequencer_by_id_isSome (net : Network) (s : Sequencer)
    (hs : s ∈ net.sequencers) :
    (net.get_sequencer_by_id s.sequencer_id).isSome = true := by
  rw [Network.get_sequencer_by_id, List.find?_isSome]
  exact ⟨s, hs, by simp⟩

/-- `remove_server` on a known member, with a resolvable leader and a
clean response: exactly one remove RPC, normal return. -/
theorem remove_server_ok (net : Network) (leader : Sequencer) (sequencer_id : String)
    (membership : List (String × Nat)) (env : Env)
    (hl : net.find_conductor_leader = some leader)
    (hsome : (net.get_sequencer_by_id sequencer_id).isSome = true)
    (henv : (env (Rpc.removeServer leader.conductor_rpc_url sequencer_id)).isOk = true) :
    remove_server net sequencer_id membership env =
      ⟨[Rpc.removeServer leader.conductor_rpc_url sequencer_id], .exited 0⟩ := by
  obtain ⟨x, hx⟩ := Option.isSome_iff_exists.mp hsome
  cases h2 : env (Rpc.removeServer leader.conductor_rpc_url sequencer_id) with
  | ok r => simp [remove_server, hl, hx, h2]
  | exn => rw [h2] at henv; exact absurd henv (by simp [RpcResp.isOk])
  | httpErr => rw [h2] at henv; exact absurd henv (by simp [RpcResp.isOk])
  | rpcError m => rw [h2] at henv; exact absurd henv (by simp [RpcResp.isOk])

/-- The reconciliation loop, when the leader is resolvable, every node is
known, every needed removal succeeds, and no add POST raises: it issues
exactly the planned per-node RPC sequence and returns normally. -/
theorem ucm_go_all_ok (net : Network) (leader : Sequencer)
    (membership : List (String × Nat)) (env : Env)
    (hl : net.find_conductor_leader = some leader) :
    ∀ l : List Sequencer,
      (∀ s ∈ l, (net.get_sequencer_by_id s.sequencer_id).isSome = true) →
      (∀ s ∈ l, needsRemove membership s = true →
        (env (Rpc.removeServer leader.conductor_rpc_url s.sequencer_id)).isOk = true) →
      (∀ s ∈ l, env (addRpc leader.conductor_rpc_url s) ≠ .exn) →
      ucm_go net leader membership env l =
        (ucmTrace leader.conductor_rpc_url membership l, .exited 0) := by
  intro l
  induction l with
  | nil => intro _ _ _; rfl
  | cons s rest ih =>
    intro hsome hrem hadd
    have ihres := ih (fun t ht => hsome t (List.mem_cons_of_mem s ht))
      (fun t ht h => hrem t (List.mem_cons_of_mem s ht) h)
      (fun t ht => hadd t (List.mem_cons_of_mem s ht))
    by_cases hr : needsRemove membership s
    · have hremS := remove_server_ok net leader s.sequencer_id membership env hl
        (hsome s (List.mem_cons_self s rest)) (hrem s (List.mem_cons_self s rest) hr)
      cases henv : env (addRpc leader.conductor_rpc_url s) with
      | exn => exact absurd henv (hadd s (List.mem_cons_self s rest))
      | httpErr => simp [ucm_go, hr, hremS, henv, ihres, ucmTrace, ucmPlanned]
      | rpcError m => simp [ucm_go, hr, hremS, henv, ihres, ucmTrace, ucmPlanned]
      | ok r => simp [ucm_go, hr, hremS, henv, ihres, ucmTrace, ucmPlanned]
    · cases henv : env (addRpc leader.conductor_rpc_url s) with
      | exn => exact absurd henv (hadd s (List.mem_cons_self s rest))
      | httpErr => simp [ucm_go, hr, henv, ihres, ucmTrace, ucmPlanned]
      | rpcError m => simp [ucm_go, hr, henv, ihres, ucmTrace, ucmPlanned]
      | ok r => simp [ucm_go, hr, henv, ihres, ucmTrace, ucmPlanned]

/-- The trace over nodes whose ids all differ from `s`'s id contains no
add RPC for `s`. -/
theorem countRpc_ucmTrace_zero (u : String) (membership : List (String × Nat))
    (s : Sequencer) :
    ∀ l : List Sequencer, (∀ t ∈ l, t.sequencer_id ≠ s.sequencer_id) →
      countRpc (addRpc u s) (ucmTrace u membership l) = 0 := by
  intro l
  induction l with
  | nil => intro _; rfl
  | cons a rest ih =>
    intro h
    have ha := h a (List.mem_cons_self a rest)
    have hrest := fun t ht => h t (List.mem_cons_of_mem a ht)
    rw [ucmTrace, countRpc_append, ih hrest, ucmPlanned, countRpc_append]
    by_cases hrm : needsRemove membership a
    · rw [if_pos hrm]
      simp [countRpc_cons, countRpc_nil,
        removeServer_ne_addRpc u u a.sequencer_id s,
        addRpc_ne_of_id_ne u a s ha]
    · rw [if_neg hrm]
      simp [countRpc_cons, countRpc_nil, addRpc_ne_of_id_ne u a s ha]

/-- The trace contains exactly one add RPC for a configured node with a
unique id that is absent from the membership record. -/
theorem countRpc_ucmTrace_one (u : String) (membership : List (String × Nat))
    (s : Sequencer) (hlook : memLookup membership s.sequencer_id = none) :
    ∀ l : List Sequencer, (l.map (fun t => t.sequencer_id)).Nodup → s ∈ l →
      countRpc (addRpc u s) (ucmTrace u membership l) = 1 := by
  intro l
  induction l with
  | nil => intro _ hs; cases hs
  | cons a rest ih =>
    intro hnodup hs
    rw [List.map_cons, List.nodup_cons] at hnodup
    rcases List.mem_cons.mp hs with rfl | hmem
    · have hrs : needsRemove membership s = false := by
        simp [needsRemove, hlook]
      have hzero : countRpc (addRpc u s) (ucmTrace u membership rest) = 0 := by
        apply countRpc_ucmTrace_zero
        intro t ht heq
        exact hnodup.1 (heq ▸ List.mem_map_of_mem _ ht)
      rw [ucmTrace, countRpc_append, hzero, ucmPlanned, if_neg (by simp [hrs])]
      simp [countRpc_cons, countRpc_nil]
    · have hane : a.sequencer_id ≠ s.sequencer_id := by
        intro he
        exact hnodup.1 (he ▸ List.mem_map_of_mem _ hmem)
      have h0 : countRpc (addRpc u s) (ucmPlanned u membership a) = 0 := by
        rw [ucmPlanned, countRpc_append]
        by_cases hrm : needsRemove membership a
        · rw [if_pos hrm]
          simp [countRpc_cons, countRpc_nil,
            removeServer_ne_addRpc u u a.sequencer_id s,
            addRpc_ne_of_id_ne u a s hane]
        · rw [if_neg hrm]
          simp [countRpc_cons, countRpc_nil, addRpc_ne_of_id_ne u a s hane]
      rw [ucmTrace, countRpc_append, h0, ih hnodup.2 hmem]

/-- What the loop plans for a node of the list is a sublist (in order)
of the whole trace. -/
theorem ucmPlanned_sublist_ucmTrace (u : String) (membership : List (String × Nat))
    (s : Sequencer) :
    ∀ l : List Sequencer, s ∈ l →
      List.Sublist (ucmPlanned u membership s) (ucmTrace u membership l) := by
  intro l
  induction l with
  | nil => intro hs; exact absurd hs (List.not_mem_nil _)
  | cons a rest ih =>
    intro hs
    rcases List.mem_cons.mp hs with rfl | hmem
    · rw [ucmTrace]
      exact List.sublist_append_left _ _
    · rw [ucmTrace]
      exact (ih hmem).trans (List.sublist_append_right _ _)

/-- The trace contains no remove RPC for an id that no wrong-suffrage
configured node carries. -/
theorem removeServer_not_mem_ucmTrace (u : String) (membership : List (String × Nat))
    (i : String) :
    ∀ l : List Sequencer,
      (∀ t ∈ l, needsRemove membership t = true → t.sequencer_id ≠ i) →
      Rpc.removeServer u i ∉ ucmTrace u membership l := by
  intro l
  induction l with
  | nil => intro _ hmem; exact absurd hmem (List.not_mem_nil _)
  | cons a rest ih =>
    intro h hmem
    rw [ucmTrace] at hmem
    rcases List.mem_append.mp hmem with h1 | h2
    · rw [ucmPlanned] at h1
      rcases List.mem_append.mp h1 with h3 | h4
      · by_cases hrm : needsRemove membership a
        · rw [if_pos hrm] at h3
          have heq := List.mem_singleton.mp h3
          simp only [Rpc.removeServer.injEq] at heq
          exact h a (List.mem_cons_self a rest) hrm heq.2.symm
        · rw [if_neg hrm] at h3
          exact absurd h3 (List.not_mem_nil _)
      · exact absurd (List.mem_singleton.mp h4) (removeServer_ne_addRpc u u i a)
    · exact ih (fun t ht => h t (List.mem_cons_of_mem a ht)) h2

/-- Claim C5: with a resolvable leader, a fetched membership record,
unique configured ids, successful removals, and no transport error on
the adds, `update_cluster_membership` handles each configured node s as
the spec demands: present with wrong suffrage — the remove RPC for s
followed (in order) by the voting-appropriate add RPC both occur in the
issued trace; absent from the Raft group — exactly one add RPC for s and
no remove RPC for s. -/
theorem update_cluster_membership_reconciles
    (net : Network) (leader : Sequencer) (membership : List (String × Nat))
    (env : Env) (s : Sequencer)
    (hl : net.find_conductor_leader = some leader)
    (hnodup : (net.sequencers.map (fun t => t.sequencer_id)).Nodup)
    (hrm : ∀ t ∈ net.sequencers, needsRemove membership t = true →
      (env (Rpc.removeServer leader.conductor_rpc_url t.sequencer_id)).isOk = true)
    (hadd : ∀ t ∈ net.sequencers, env (addRpc leader.conductor_rpc_url t) ≠ .exn)
    (hs : s ∈ net.sequencers) :
    (needsRemove membership s = true →
      List.Sublist
        [Rpc.removeServer leader.conductor_rpc_url s.sequencer_id,
         addRpc leader.conductor_rpc_url s]
        (update_cluster_membership net membership env).trace)
    ∧ (memLookup membership s.sequencer_id = none →
      countRpc (addRpc leader.conductor_rpc_url s)
        (update_cluster_membership net membership env).trace = 1
      ∧ Rpc.removeServer leader.conductor_rpc_url s.sequencer_id ∉
        (update_cluster_membership net membership env).trace) := by
  have hsome : ∀ t ∈ net.sequencers,
      (net.get_sequencer_by_id t.sequencer_id).isSome = true :=
    fun t ht => get_sequencer_by_id_isSome net t ht
  have hrun := ucm_go_all_ok net leader membership env hl net.sequencers hsome hrm hadd
  have htrace : (update_cluster_membership net membership env).trace =
      ucmTrace leader.conductor_rpc_url membership net.sequencers := by
    simp [update_cluster_membership, hl, hrun]
  constructor
  · intro hr
    rw [htrace]
    have hsub := ucmPlanned_sublist_ucmTrace leader.conductor_rpc_url membership s
      net.sequencers hs
    rw [ucmPlanned, if_pos (by simp [hr])] at hsub
    simpa using hsub
  · intro hlook
    rw [htrace]
    constructor
    · exact countRpc_ucmTrace_one leader.conductor_rpc_url membership s hlook
        net.sequencers hnodup hs
    · apply removeServer_not_mem_ucmTrace
      intro t ht hrt heq
      simp [needsRemove, heq, hlook] at hrt

/-- Witness for `update_cluster_membership_reconciles` on the concrete
network `netLAB` against the membership `memLAB`: `A` (configured
non-voting, recorded as voter) is removed and re-added as non-voter;
`B` (absent) is added exactly once as voter and never removed. -/
theorem update_cluster_membership_reconciles_witness :
    List.Sublist
      [Rpc.removeServer "cuL" "A", Rpc.addServerAsNonvoter "cuL" "A" "rA"]
      (update_cluster_membership netLAB memLAB envAllOk).trace
    ∧ countRpc (Rpc.addServerAsVoter "cuL" "B" "rB")
        (update_cluster_membership netLAB memLAB envAllOk).trace = 1
    ∧ Rpc.removeServer "cuL" "B" ∉
        (update_cluster_membership netLAB memLAB envAllOk).trace :=
  ⟨(update_cluster_membership_reconciles netLAB seqL memLAB envAllOk seqA
      (by decide) (by decide) (by decide) (by decide) (by decide)).1 (by decide),
   (update_cluster_membership_reconciles netLAB seqL memLAB envAllOk seqB
      (by decide) (by decide) (by decide) (by decide) (by decide)).2 (by decide)⟩

end ConductorOps
